import Mathlib

/-!
Verification development for the Issues-bot issue-processing pipeline.

The definitions below are a shallow embedding of the TypeScript sources:
`src/services/autofix.ts` (Fix Safety Gate and Fix Applicator),
`src/services/ai.ts` (Analyzer response parsing), `src/services/github.ts`
(pipeline orchestrator / admission filter / commands), `src/services/database.ts`
(record store), `src/index.ts` (webhook wrappers and PR tracking) and
`src/config/index.ts` (configuration constants).  JavaScript numbers carrying
confidences are embedded as rationals; the record store is embedded as a
function from issue identity to an optional record; external services
(language-model calls, the hosting API's per-file outcomes) are oracles passed
in explicitly.  `Date` timestamp fields are omitted from the record embedding
(real time is not modelled); no claim below mentions them.
-/

namespace IssuesBot

/-- Risk level of an auto-fix suggestion (source: `riskLevel: 'low' | 'medium' | 'high'`
in `AutoFixSuggestion`, `src/types/index.ts`). -/
inductive RiskLevel
  | low
  | medium
  | high
deriving DecidableEq, Repr

/-- Per-file action of a file edit (source: `action: 'create' | 'update' | 'delete'`). -/
inductive FileAction
  | create
  | update
  | delete
deriving DecidableEq, Repr

/-- Kind of a line-level change (source: `type: 'add' | 'remove' | 'replace'` in
`FileChange`, `src/types/index.ts`). -/
inductive ChangeType
  | add
  | remove
  | replace
deriving DecidableEq, Repr

/-- A line-level edit (source: `interface FileChange` in `src/types/index.ts`).
Line numbers are 1-based; the embedding uses `Nat`, covering the 1-based
convention the code assumes. -/
structure FileChange where
  lineNumber : Nat
  type : ChangeType
  content : String
  originalContent : Option String := none
deriving DecidableEq, Repr

/-- One file edit of an auto-fix suggestion (source: the element type of
`AutoFixSuggestion.files` in `src/types/index.ts`).  `content` is the optional
full replacement content; `changes` the optional line-level edits. -/
structure FileEdit where
  path : String
  action : FileAction
  content : Option String := none
  changes : Option (List FileChange) := none
deriving DecidableEq, Repr

/-- Type tag of an auto-fix suggestion (source:
`type: 'code_change' | 'config_change' | 'dependency_update' | 'documentation'`). -/
inductive FixType
  | codeChange
  | configChange
  | dependencyUpdate
  | documentation
deriving DecidableEq, Repr

/-- A machine-applicable edit set (source: `interface AutoFixSuggestion` in
`src/types/index.ts`).  Confidence is a rational standing for the JS number. -/
structure AutoFixSuggestion where
  type : FixType
  description : String
  files : List FileEdit
  commands : List String := []
  confidence : ℚ
  riskLevel : RiskLevel
  testRequired : Bool
deriving DecidableEq, Repr

/-- A JavaScript number as it flows out of arithmetic on parsed JSON: either
`NaN` or a finite value (embedded as a rational; the clamp below cannot produce
infinities from JSON input). -/
inductive JsNumber
  | nan
  | finite (q : ℚ)
deriving DecidableEq, Repr

/-- `Math.max` of two numbers: any `NaN` operand makes the result `NaN`. -/
def jsMax : JsNumber → JsNumber → JsNumber
  | .nan, _ => .nan
  | .finite _, .nan => .nan
  | .finite a, .finite b => .finite (max a b)

/-- `Math.min` of two numbers: any `NaN` operand makes the result `NaN`. -/
def jsMin : JsNumber → JsNumber → JsNumber
  | .nan, _ => .nan
  | .finite _, .nan => .nan
  | .finite a, .finite b => .finite (min a b)

/-- Whether a JavaScript number lies in the interval `[0, 1]`.  Every numeric
comparison with `NaN` is false, so `NaN` lies in no interval. -/
def JsNumber.inUnitInterval : JsNumber → Bool
  | .nan => false
  | .finite q => decide (0 ≤ q ∧ q ≤ 1)

/-- Analyzer classification of an issue (source: `interface IssueAnalysis` in
`src/types/index.ts`).  The `type`, `severity` and `priority` fields are plain
strings, and `confidence` a `JsNumber`: at runtime `parseAnalysisResponse`
assigns the raw parsed values without validating them against the declared
types, so a non-numeric JSON confidence flows through the clamp as `NaN`. -/
structure IssueAnalysis where
  type : String
  severity : String
  priority : String
  confidence : JsNumber
  description : String
  suggestedLabels : List String
  estimatedTime : String
  autoFixable : Bool
  relatedFiles : List String := []
  dependencies : List String := []
deriving DecidableEq, Repr

/-- One human-readable remediation step (source: `interface SolutionStep`). -/
structure SolutionStep where
  title : String
  description : String
  code : Option String := none
  commands : List String := []
  files : List String := []
deriving DecidableEq, Repr

/-- A remediation plan (source: `interface IssueSolution` in `src/types/index.ts`);
`difficulty` is a raw string for the same reason as the analysis enumerations. -/
structure IssueSolution where
  summary : String
  steps : List SolutionStep
  autoFix : Option AutoFixSuggestion := none
  additionalResources : List String := []
  estimatedTime : String
  difficulty : String
deriving DecidableEq, Repr

/-- The auto-fix policy knobs read from the environment (source: `config.ai` in
`src/config/index.ts`; defaults `CONFIDENCE_THRESHOLD=0.8`,
`MAX_AUTO_FIX_COMPLEXITY=3`).  Kept parametric so that theorems quantify over
every policy. -/
structure AIConfig where
  confidenceThreshold : ℚ
  maxAutoFixComplexity : Nat
deriving DecidableEq, Repr

/-- JavaScript `s.endsWith(suffix)`, computed on the character lists. -/
def jsEndsWith (s suffix : String) : Bool :=
  suffix.data.isSuffixOf s.data

/-- JavaScript `s.startsWith(p)`, computed on the character lists. -/
def jsStartsWith (s p : String) : Bool :=
  p.data.isPrefixOf s.data

/-- JavaScript `s.toLowerCase()`, computed on the character lists. -/
def jsToLower (s : String) : String :=
  String.mk (s.data.map Char.toLower)

/-- Drop the first `n` characters of a string. -/
def jsDropChars (s : String) (n : Nat) : String :=
  String.mk (s.data.drop n)

/-- The critical-path denylist (source: the `criticalFiles` array inside
`isAutoFixSafe`, `src/services/autofix.ts`). -/
def criticalFiles : List String :=
  ["package.json", "package-lock.json", "yarn.lock",
   "Dockerfile", "docker-compose.yml",
   ".env", ".env.local", ".env.production",
   "nginx.conf", "apache.conf"]

/-- One item of a dangerous-content pattern: a literal character (compared
case-insensitively, all source regexes carry the `i` flag), one-or-more
whitespace (`\s+`), or an optional `_`/`-` separator (`[_-]?`). -/
inductive PatItem
  | lit (c : Char)
  | wsPlus
  | optSep
deriving DecidableEq, Repr

/-- Whitespace for the regex class `\s`. -/
def isWsChar (c : Char) : Bool :=
  c = ' ' || c = '\t' || c = '\n' || c = '\r' || c = '\x0b' || c = '\x0c'

/-- Separator characters for the regex class `[_-]`. -/
def isSepChar (c : Char) : Bool :=
  c = '_' || c = '-'

/-- Match a pattern at the start of a character list. -/
def matchItemsAt : List PatItem → List Char → Bool
  | [], _ => true
  | .lit c :: ps, x :: xs => x.toLower = c && matchItemsAt ps xs
  | .lit _ :: _, [] => false
  | .wsPlus :: ps, x :: xs => isWsChar x && (matchItemsAt ps xs || matchItemsAt (.wsPlus :: ps) xs)
  | .wsPlus :: _, [] => false
  | .optSep :: ps, x :: xs => (isSepChar x && matchItemsAt ps xs) || matchItemsAt ps (x :: xs)
  | .optSep :: ps, [] => matchItemsAt ps []
termination_by ps cs => (cs.length, ps.length)

/-- Search for a pattern match anywhere in the character list, as `RegExp.test`
does. -/
def searchPat (p : List PatItem) : List Char → Bool
  | [] => matchItemsAt p []
  | x :: xs => matchItemsAt p (x :: xs) || searchPat p xs

/-- `pattern.test(s)` for the embedded pattern language. -/
def patTest (p : List PatItem) (s : String) : Bool :=
  searchPat p s.data

/-- Literal pattern items for a string. -/
def litItems (s : String) : List PatItem :=
  s.data.map PatItem.lit

/-- The dangerous-content denylist (source: the `dangerousPatterns` array inside
`isAutoFixSafe`, `src/services/autofix.ts`: `/rm\s+-rf/i`, `/sudo/i`,
`/chmod\s+777/i`, `/password/i`, `/secret/i`, `/api[_-]?key/i`,
`/private[_-]?key/i`). -/
def dangerousPatterns : List (List PatItem) :=
  [ litItems "rm" ++ [.wsPlus] ++ litItems "-rf"
  , litItems "sudo"
  , litItems "chmod" ++ [.wsPlus] ++ litItems "777"
  , litItems "password"
  , litItems "secret"
  , litItems "api" ++ [.optSep] ++ litItems "key"
  , litItems "private" ++ [.optSep] ++ litItems "key" ]

/-- Source: `file.content && dangerousPatterns.some(pattern => pattern.test(file.content!))`
for a single file edit; a file with no full content never triggers the check. -/
def fileHasDangerousContent (f : FileEdit) : Bool :=
  match f.content with
  | some c => dangerousPatterns.any fun p => patTest p c
  | none => false

/-- The Fix Safety Gate (source: `isAutoFixSafe` in `src/services/autofix.ts`,
lines 98-155).  The module-global `config.ai` is passed explicitly as `cfg`;
the `analysis` argument is accepted as in the source (where it is unused by the
checks).  The source's early `return false`s become the if-chain. -/
def isAutoFixSafe (autoFix : AutoFixSuggestion) (analysis : IssueAnalysis)
    (cfg : AIConfig) : Bool :=
  if autoFix.confidence < cfg.confidenceThreshold then false
  else if autoFix.riskLevel = .high then false
  else if autoFix.files.length > cfg.maxAutoFixComplexity then false
  else
    let hasCriticalFiles := autoFix.files.any fun file =>
      criticalFiles.any fun critical => jsEndsWith file.path critical
    if hasCriticalFiles && !(autoFix.riskLevel = .low) then false
    else
      let hasDangerousContent := autoFix.files.any fileHasDangerousContent
      if hasDangerousContent then false
      else true

/-- The shape `JSON.parse` hands to `parseAnalysisResponse`: each field of the
completion's JSON object, or `none` when the key is absent.  `JSON.parse` itself
is the JavaScript runtime, not repository code; a completion text that is not
valid JSON (or not an object) is embedded as the `none` input of
`parseAnalysisResponse` below.  `confidence?` carries the `ToNumber` image of
the parsed confidence value — `.finite q` for a number or numeric string,
`.nan` for a non-numeric value such as the JSON string `"high"` — because the
required-field check only tests the key's presence, never its type. -/
structure ParsedAnalysis where
  type? : Option String := none
  severity? : Option String := none
  priority? : Option String := none
  confidence? : Option JsNumber := none
  description? : Option String := none
  suggestedLabels? : Option (List String) := none
  estimatedTime? : Option String := none
  autoFixable? : Option Bool := none
  relatedFiles? : Option (List String) := none
  dependencies? : Option (List String) := none
deriving DecidableEq, Repr

/-- The deterministic fallback classification (source: the catch-block return of
`parseAnalysisResponse` in `src/services/ai.ts`). -/
def fallbackAnalysis : IssueAnalysis :=
  { type := "other"
  , severity := "medium"
  , priority := "medium"
  , confidence := .finite (3/10)
  , description := "自动分析失败，需要人工审查"
  , suggestedLabels := ["needs-review"]
  , estimatedTime := "未知"
  , autoFixable := false
  , relatedFiles := []
  , dependencies := [] }

/-- JavaScript `s || d` for a possibly-missing string: a missing key and the
empty string are both falsy and yield the default. -/
def jsOrString (o : Option String) (d : String) : String :=
  match o with
  | some s => if s = "" then d else s
  | none => d

/-- The Analyzer's response parser (source: `parseAnalysisResponse` in
`src/services/ai.ts`, lines 248-288).  A `none` input stands for a `JSON.parse`
failure; a missing required field reproduces the thrown-and-caught path; both
land in the fallback.  `Math.min(Math.max(parsed.confidence || 0, 0), 1)` is
applied to the `ToNumber` image of the confidence value: the `|| 0` guard does
not change that image, because every falsy JSON value (`0`, `""`, `null`,
`false`) coerces to `0`, while truthy values — including non-numeric ones,
whose image is `NaN` — are passed through to `Math.max` unchanged. -/
def parseAnalysisResponse (parsed? : Option ParsedAnalysis) : IssueAnalysis :=
  match parsed? with
  | none => fallbackAnalysis
  | some p =>
    if p.type?.isSome ∧ p.severity?.isSome ∧ p.priority?.isSome ∧
       p.confidence?.isSome ∧ p.description?.isSome then
      { type := p.type?.getD ""
      , severity := p.severity?.getD ""
      , priority := p.priority?.getD ""
      , confidence := jsMin (jsMax (p.confidence?.getD (.finite 0)) (.finite 0)) (.finite 1)
      , description := p.description?.getD ""
      , suggestedLabels := p.suggestedLabels?.getD []
      , estimatedTime := jsOrString p.estimatedTime? "未知"
      , autoFixable := p.autoFixable?.getD false
      , relatedFiles := p.relatedFiles?.getD []
      , dependencies := p.dependencies?.getD [] }
    else
      fallbackAnalysis

/-- Stable insertion of a change into a list already sorted by descending line
number; together with `sortChangesDesc` this embeds
`changes.sort((a, b) => b.lineNumber - a.lineNumber)` (stable per ES2019). -/
def insertDescending (c : FileChange) : List FileChange → List FileChange
  | [] => [c]
  | x :: xs => if x.lineNumber > c.lineNumber then x :: insertDescending c xs else c :: x :: xs

/-- Sort line changes by descending line number (source: the `sortedChanges`
line of `applyFileChanges`, `src/services/autofix.ts`). -/
def sortChangesDesc : List FileChange → List FileChange
  | [] => []
  | c :: cs => insertDescending c (sortChangesDesc cs)

/-- `lines.splice(i, 0, s)`: insert at index `i`, clamped to the length. -/
def spliceInsert (lines : List String) (i : Nat) (s : String) : List String :=
  lines.take i ++ [s] ++ lines.drop i

/-- `lines.splice(i, 1)`: remove the element at index `i` (callers guard
`i < lines.length`). -/
def spliceRemove (lines : List String) (i : Nat) : List String :=
  lines.take i ++ lines.drop (i + 1)

/-- One iteration of the edit loop of `applyFileChanges`
(`src/services/autofix.ts`, lines 294-308): convert the 1-based line number to
a 0-based index, then add / remove / replace, the latter two only in bounds. -/
def applyOneChange (lines : List String) (c : FileChange) : List String :=
  let lineIndex := c.lineNumber - 1
  match c.type with
  | .add => spliceInsert lines lineIndex c.content
  | .remove => if lineIndex < lines.length then spliceRemove lines lineIndex else lines
  | .replace => if lineIndex < lines.length then lines.set lineIndex c.content else lines

/-- The edit loop over the descending-sorted changes. -/
def applyLineChanges (lines : List String) (changes : List FileChange) : List String :=
  (sortChangesDesc changes).foldl applyOneChange lines

/-- Accumulator loop for `jsSplitNewline`. -/
def splitLinesAux : List Char → List Char → List String
  | [], acc => [String.mk acc.reverse]
  | c :: cs, acc =>
    if c = '\n' then String.mk acc.reverse :: splitLinesAux cs []
    else splitLinesAux cs (c :: acc)

/-- JavaScript `content.split('\n')`: split on each newline character, keeping
empty pieces (`"".split('\n')` is `[""]`). -/
def jsSplitNewline (s : String) : List String :=
  splitLinesAux s.data []

/-- JavaScript `lines.join('\n')`. -/
def jsJoinNewline : List String → String
  | [] => ""
  | [l] => l
  | l :: ls => l ++ "\n" ++ jsJoinNewline ls

/-- Fine-grained file change application (source: `applyFileChanges` in
`src/services/autofix.ts`, lines 288-311): split on newline, apply the changes
in descending line-number order, join with newline. -/
def applyFileChanges (originalContent : String) (changes : List FileChange) : String :=
  jsJoinNewline (applyLineChanges (jsSplitNewline originalContent) changes)

/-- Outcome of `applyAutoFix`: whether it reported success, whether a pull
request was opened, and the paths of the successfully changed files. -/
structure ApplyResult where
  success : Bool
  prOpened : Bool
  changedFiles : List String
deriving DecidableEq, Repr

/-- The Fix Applicator's control flow (source: `applyAutoFix` in
`src/services/autofix.ts`, lines 15-93).  The per-file hosting-API outcome
(`applyFileChange`, which catches its own errors and returns a boolean) is the
oracle `fileChangeOk`; branch creation and the final PR call are kept as the
recorded outcome.  The safety gate is consulted first; then the changed-file
list is collected; `changedFiles.length === 0` reports failure without opening
a request; otherwise the pull request is created and success reported. -/
def applyAutoFix (autoFix : AutoFixSuggestion) (analysis : IssueAnalysis)
    (cfg : AIConfig) (fileChangeOk : FileEdit → Bool) : ApplyResult :=
  if !(isAutoFixSafe autoFix analysis cfg) then
    { success := false, prOpened := false, changedFiles := [] }
  else if ((autoFix.files.filter fun f => fileChangeOk f).map (·.path)).length = 0 then
    { success := false, prOpened := false
    , changedFiles := (autoFix.files.filter fun f => fileChangeOk f).map (·.path) }
  else
    { success := true, prOpened := true
    , changedFiles := (autoFix.files.filter fun f => fileChangeOk f).map (·.path) }

/-- A label on an issue (only the name matters to the pipeline). -/
structure IssueLabel where
  name : String
deriving DecidableEq, Repr

/-- The slice of a hosting-platform issue the pipeline reads (source:
`interface GitHubIssue` in `src/types/index.ts`); `state` is the raw string
(`"open"` / `"closed"`). -/
structure GitHubIssue where
  number : Nat
  title : String
  body : Option String := none
  state : String
  labels : List IssueLabel
deriving DecidableEq, Repr

/-- The slice of a repository the pipeline reads (source:
`interface GitHubRepository`). -/
structure GitHubRepository where
  id : Nat
  fullName : String
deriving DecidableEq, Repr

/-- Processing status stored per issue record (source: `enum IssueStatus` in
`src/types/index.ts`). -/
inductive IssueStatus
  | pending
  | analyzing
  | analyzed
  | autoFixing
  | fixed
  | manualRequired
  | closed
  | error
deriving DecidableEq, Repr

/-- A persisted issue record (source: `interface IssueRecord` in
`src/types/index.ts`; the `Date` fields `createdAt` / `updatedAt` /
`processedAt` are not modelled). -/
structure IssueRecord where
  id : String
  issueNumber : Nat
  repositoryId : String
  repositoryName : String
  title : String
  body : Option String := none
  analysis : IssueAnalysis
  solution : Option IssueSolution := none
  status : IssueStatus
  autoFixAttempted : Bool
  autoFixSuccessful : Option Bool := none
deriving DecidableEq, Repr

/-- The record store keyed by issue identity (source: the `issues` table of
`DatabaseService`, `src/services/database.ts`; `id` is the primary key). -/
def Store : Type := String → Option IssueRecord

/-- `INSERT OR REPLACE` keyed by `record.id` (source:
`DatabaseService.saveIssueRecord`). -/
def storeSave (s : Store) (r : IssueRecord) : Store :=
  fun k => if k = r.id then some r else s k

/-- `UPDATE issues SET status = ? WHERE id = ?` (source:
`DatabaseService.updateIssueStatus`): a no-op on an absent identity. -/
def storeUpdateStatus (s : Store) (issueId : String) (status : IssueStatus) : Store :=
  fun k => if k = issueId then (s issueId).map fun r => { r with status := status } else s k

/-- `UPDATE issues SET auto_fix_attempted = 1, auto_fix_successful = ? WHERE id = ?`
(source: `DatabaseService.recordAutoFixAttempt`); the status column is not
touched. -/
def storeRecordAutoFixAttempt (s : Store) (issueId : String) (successful : Bool) : Store :=
  fun k =>
    if k = issueId then
      (s issueId).map fun r => { r with autoFixAttempted := true, autoFixSuccessful := some successful }
    else s k

/-- The store plus the append-only action log (source: the `issues` and
`issue_logs` tables); a log entry is (issue identity, action name). -/
structure BotState where
  store : Store
  logs : List (String × String)

/-- The empty persistence state. -/
def emptyState : BotState :=
  { store := fun _ => none, logs := [] }

/-- Append one action-log row (source: `DatabaseService.addIssueLog`). -/
def addIssueLog (st : BotState) (issueId : String) (action : String) : BotState :=
  { st with logs := st.logs ++ [(issueId, action)] }

/-- Bodies of the comments the bot posts, tagged by which template produced
them; command responses carry their message text. -/
inductive CommentBody
  | analysisSummary
  | errorReport
  | rateLimit
  | reanalysis
  | autoFixCompleted (prNumber : Nat)
  | autoFixCreated (prNumber : Nat)
  | commandResponse (msg : String)
deriving DecidableEq, Repr

/-- Externally visible hosting-API mutations the pipeline performs. -/
inductive Action
  | addLabels (issueNumber : Nat) (labels : List String)
  | removeLabel (issueNumber : Nat) (label : String)
  | createComment (issueNumber : Nat) (body : CommentBody)
  | closeIssue (issueNumber : Nat)
  | createPullRequest (head : String)
deriving DecidableEq, Repr

/-- The skip-label denylist (source: `defaultBotConfig.skipLabels` in
`src/config/index.ts`). -/
def skipLabels : List String :=
  ["duplicate", "invalid", "wontfix", "spam"]

/-- The admission filter (source: `shouldProcessIssue` in
`src/services/github.ts`, lines 119-140): skip on any denylisted label
(compared after lower-casing the issue's label), on a non-open state, and on
either processed-marker label. -/
def shouldProcessIssue (issue : GitHubIssue) : Bool :=
  let hasSkipLabel := issue.labels.any fun l => skipLabels.contains (jsToLower l.name)
  if hasSkipLabel then false
  else if issue.state ≠ "open" then false
  else
    let hasProcessedLabel := issue.labels.any fun l =>
      ["issues-bot:analyzed", "issues-bot:processing"].contains l.name
    !hasProcessedLabel

/-- Issue identity used as the store key (source: `generateIssueId` in
`src/services/github.ts`: `repository.full_name#issue.number`). -/
def generateIssueId (repoFullName : String) (issueNumber : Nat) : String :=
  repoFullName ++ "#" ++ toString issueNumber

/-- The record built by `GitHubService.saveIssueRecord` on first successful
classification (source: `src/services/github.ts`, lines 317-340): status
`'analyzed'`, `autoFixAttempted: false`. -/
def mkIssueRecord (issue : GitHubIssue) (repo : GitHubRepository)
    (analysis : IssueAnalysis) (solution : Option IssueSolution) : IssueRecord :=
  { id := generateIssueId repo.fullName issue.number
  , issueNumber := issue.number
  , repositoryId := toString repo.id
  , repositoryName := repo.fullName
  , title := issue.title
  , body := issue.body
  , analysis := analysis
  , solution := solution
  , status := .analyzed
  , autoFixAttempted := false
  , autoFixSuccessful := none }

/-- Oracles for the external calls a pipeline run makes: the Analyzer result
(`none` models a transport-level failure of `analyzeIssue`, which throws), the
Solution Generator result (`none` models its caught failure), the auto-fix
generation result (`none` models `generateAutoFix` returning `null` or
throwing), and the per-file hosting-API outcome.  The feature flag and policy
mirror `defaultBotConfig` / `config.ai`. -/
structure PipelineEnv where
  analysisResult : Option IssueAnalysis
  solutionResult : Option IssueSolution
  autoFixResult : Option AutoFixSuggestion
  fileChangeOk : FileEdit → Bool
  autoFixEnabled : Bool
  aiCfg : AIConfig

/-- The auto-fix attempt step (source: `attemptAutoFix` in
`src/services/github.ts`, lines 204-240): generate a suggestion, run the
applicator, then record the attempt and append an audit log entry.  On success
the applicator has opened a pull request and posted a summary comment on the
issue (source: `applyAutoFix`, `src/services/autofix.ts`). -/
def attemptAutoFix (env : PipelineEnv) (issue : GitHubIssue) (repo : GitHubRepository)
    (analysis : IssueAnalysis) (st : BotState) : List Action × BotState :=
  match env.autoFixResult with
  | none => ([], st)
  | some autoFix =>
    let r := applyAutoFix autoFix analysis env.aiCfg env.fileChangeOk
    let issueId := generateIssueId repo.fullName issue.number
    let st1 : BotState :=
      { store := storeRecordAutoFixAttempt st.store issueId r.success
      , logs := st.logs ++ [(issueId, "auto_fix_attempted")] }
    let acts :=
      if r.prOpened then
        [Action.createPullRequest ("autofix/issue-" ++ toString issue.number),
         Action.createComment issue.number (.autoFixCreated 0)]
      else []
    (acts, st1)

/-- The record-creation step (source: `GitHubService.saveIssueRecord` in
`src/services/github.ts`, lines 317-340): upsert the freshly built record —
status `'analyzed'`, `autoFixAttempted: false` — and append the `'analyzed'`
log entry. -/
def saveIssueRecordStep (issue : GitHubIssue) (repo : GitHubRepository)
    (analysis : IssueAnalysis) (st : BotState) : BotState :=
  let record := mkIssueRecord issue repo analysis none
  addIssueLog { st with store := storeSave st.store record } record.id "analyzed"

/-- The persistence part of `GitHubService.generateSolution`
(`src/services/github.ts`, lines 172-199): when a solution was generated and a
record exists at the issue identity, re-save that record with the solution
attached; otherwise leave the store alone. -/
def generateSolutionStep (env : PipelineEnv) (issueId : String) (st : BotState) : BotState :=
  match env.solutionResult with
  | none => st
  | some sol =>
    match st.store issueId with
    | some existing =>
      { st with store := storeSave st.store { existing with solution := some sol } }
    | none => st

/-- The issue-opened pipeline (source: `handleIssueOpened` in
`src/services/github.ts`, lines 30-84): admission filter, processing label,
analysis (a transport failure lands in the catch block, which posts an error
comment and leaves the store untouched), record creation with status
`'analyzed'`, label swap, best-effort solution generation (which re-saves the
existing record with the solution attached), analysis comment, and the optional
auto-fix attempt. -/
def handleIssueOpened (env : PipelineEnv) (issue : GitHubIssue)
    (repo : GitHubRepository) (st : BotState) : List Action × BotState :=
  if !(shouldProcessIssue issue) then ([], st)
  else
    let acts1 := [Action.addLabels issue.number ["issues-bot:processing"]]
    match env.analysisResult with
    | none =>
      (acts1 ++ [Action.createComment issue.number .errorReport], st)
    | some analysis =>
      let st1 := saveIssueRecordStep issue repo analysis st
      let analysisLabels :=
        ["issues-bot:analyzed", "type:" ++ analysis.type, "severity:" ++ analysis.severity,
         "priority:" ++ analysis.priority] ++ analysis.suggestedLabels
      let acts2 := acts1 ++
        [Action.removeLabel issue.number "issues-bot:processing",
         Action.addLabels issue.number analysisLabels]
      let st2 := generateSolutionStep env (generateIssueId repo.fullName issue.number) st1
      let acts3 := acts2 ++ [Action.createComment issue.number .analysisSummary]
      if analysis.autoFixable && env.autoFixEnabled then
        let r := attemptAutoFix env issue repo analysis st2
        (acts3 ++ r.1, r.2)
      else (acts3, st2)

/-- Progress message posted first by the `fix` command handler (source:
`handleFixCommand`, `src/services/github.ts`). -/
def fixProgressMsg : String := "🔧 尝试自动修复中..."

/-- Explanatory message posted when no stored record exists (source:
`handleFixCommand`, `src/services/github.ts`). -/
def noRecordMsg : String := "❌ 未找到分析记录，请先使用 `@issues-bot analyze` 进行分析。"

/-- The `fix` command handler (source: `handleFixCommand` in
`src/services/github.ts`, lines 590-606): post the progress response, look up
the stored record, and either post the explanatory analyze-first response (no
state change) or re-run the auto-fix attempt from the stored classification. -/
def handleFixCommand (env : PipelineEnv) (issue : GitHubIssue)
    (repo : GitHubRepository) (st : BotState) : List Action × BotState :=
  let acts0 := [Action.createComment issue.number (.commandResponse fixProgressMsg)]
  let issueId := generateIssueId repo.fullName issue.number
  match st.store issueId with
  | none =>
    (acts0 ++ [Action.createComment issue.number (.commandResponse noRecordMsg)], st)
  | some record =>
    let r := attemptAutoFix env issue repo record.analysis st
    (acts0 ++ r.1, r.2)

/-- A pull request as seen by the PR webhook handler. -/
structure PullRequest where
  number : Nat
  headRef : String
  merged : Bool
deriving DecidableEq, Repr

/-- JavaScript `parseInt` on a decimal string: the longest digit prefix, or
`none` (`NaN`) when there is none. -/
def parseLeadingInt (s : String) : Option Nat :=
  let digits := s.data.takeWhile (·.isDigit)
  if digits.isEmpty then none
  else some (digits.foldl (fun n c => n * 10 + (c.toNat - 48)) 0)

/-- `pr.head.ref.replace('autofix/issue-', '')` under the guard that the ref
starts with that pattern: JavaScript `replace` with a string argument replaces
the first occurrence, which is the leading one here. -/
def stripAutofixBranch (s : String) : String :=
  jsDropChars s "autofix/issue-".length

/-- The pull-request webhook handler (source: the
`pull_request.opened` / `pull_request.closed` handler in `src/index.ts`, lines
148-187, and `addAutoFixCompletedComment`, lines 311-352).  On a ref matching the
auto-fix convention it logs the event; if the action is `closed` and the PR is
merged it updates the stored status to `'fixed'`, posts one completion comment
on the originating issue and closes the platform issue.  When the ref's suffix
parses to no number (`NaN`) the platform calls fail and are swallowed by the
catch block, so no action is emitted. -/
def handlePullRequestEvent (action : String) (pr : PullRequest)
    (repo : GitHubRepository) (st : BotState) : List Action × BotState :=
  if jsStartsWith pr.headRef "autofix/issue-" then
    let issueNumber? := parseLeadingInt (stripAutofixBranch pr.headRef)
    let numberText := match issueNumber? with
      | some n => toString n
      | none => "NaN"
    let issueId := repo.fullName ++ "#" ++ numberText
    let st1 := addIssueLog st issueId ("autofix_pr_" ++ action)
    if action = "closed" && pr.merged then
      let st2 := { st1 with store := storeUpdateStatus st1.store issueId .fixed }
      match issueNumber? with
      | some n =>
        ([Action.createComment n (.autoFixCompleted pr.number), Action.closeIssue n], st2)
      | none => ([], st2)
    else ([], st1)
  else ([], st)

/-- The rejection value the rate limiter's `consume` produces, reduced to the
one property the handler inspects: whether it is a JavaScript `Error`
instance. -/
structure ConsumeRejection where
  isError : Bool
deriving DecidableEq, Repr

/-- Modelled from the `rate-limiter-flexible` library contract: when the token
bucket is exhausted, `consume` rejects with a `RateLimiterRes` object, which is
not an `Error` instance (the library's documented idiom is
`if (rej instanceof Error) ... else /* rate limited */`). -/
def rateLimiterRes : ConsumeRejection := { isError := false }

/-- The `issues.opened` webhook wrapper (source: the `app.on('issues.opened')`
handler in `src/index.ts`, lines 29-60).  `consumeRejection?` is the outcome of
`rateLimiter.consume`: `none` when a token was available (the pipeline runs),
`some rej` when it rejected.  The catch block posts the rate-limit comment only
when the rejection is an `Error` instance, and otherwise only logs.
`handleIssueOpened` itself catches all of its errors, so the pipeline never
reaches this catch block. -/
def issuesOpenedWebhook (consumeRejection? : Option ConsumeRejection)
    (env : PipelineEnv) (issue : GitHubIssue) (repo : GitHubRepository)
    (st : BotState) : List Action × BotState :=
  match consumeRejection? with
  | none => handleIssueOpened env issue repo st
  | some rej =>
    if rej.isError then
      ([Action.createComment issue.number .rateLimit], st)
    else
      ([], st)

/-! Theorems. -/

/-- Characterization of the Fix Safety Gate: it accepts exactly when every one
of its five checks passes. -/
theorem isAutoFixSafe_eq_true_iff (a : AutoFixSuggestion) (an : IssueAnalysis)
    (cfg : AIConfig) :
    isAutoFixSafe a an cfg = true ↔
      cfg.confidenceThreshold ≤ a.confidence ∧
      a.riskLevel ≠ .high ∧
      a.files.length ≤ cfg.maxAutoFixComplexity ∧
      ((a.files.any fun f => criticalFiles.any fun c => jsEndsWith f.path c) = false ∨
        a.riskLevel = .low) ∧
      a.files.any fileHasDangerousContent = false := by
  unfold isAutoFixSafe
  split_ifs with h1 h2 h3 h4 h5 <;>
    simp_all [not_lt, Bool.and_eq_true, Bool.not_eq_true']

/-- Claim C1: for every auto-fix suggestion, classification and policy, the Fix
Safety Gate returns `false` whenever the suggestion's confidence is strictly
below the policy's confidence threshold, or its risk level is high, or the
number of file edits exceeds the policy's maximum complexity, or some edited
path ends with a denylisted critical filename while the risk level is not low,
or some file's full content matches a denylisted dangerous pattern.  The gate
is a pure Lean function of `(autoFix, analysis, cfg)`, so identical inputs
yield the identical boolean and the inputs are not mutated, which the final
conjunct records. -/
theorem isAutoFixSafe_rejects (a : AutoFixSuggestion) (an an' : IssueAnalysis)
    (cfg : AIConfig)
    (h : a.confidence < cfg.confidenceThreshold ∨
         a.riskLevel = .high ∨
         a.files.length > cfg.maxAutoFixComplexity ∨
         ((∃ f ∈ a.files, ∃ c ∈ criticalFiles, jsEndsWith f.path c = true) ∧
            a.riskLevel ≠ .low) ∨
         (∃ f ∈ a.files, ∃ s, f.content = some s ∧
            ∃ p ∈ dangerousPatterns, patTest p s = true)) :
    isAutoFixSafe a an cfg = false ∧
      isAutoFixSafe a an cfg = isAutoFixSafe a an' cfg := by
  have hfalse : isAutoFixSafe a an cfg = false := by
    cases hb : isAutoFixSafe a an cfg with
    | false => rfl
    | true =>
      rw [isAutoFixSafe_eq_true_iff] at hb
      obtain ⟨hc, hr, hl, hcrit, hdang⟩ := hb
      rcases h with h | h | h | ⟨⟨f, hf, c, hc', he⟩, hrl⟩ | ⟨f, hf, s, hs, p, hp, ht⟩
      · exact absurd hc (not_le.mpr h)
      · exact absurd h hr
      · exact absurd hl (not_le.mpr h)
      · rcases hcrit with hcrit | hcrit
        · have htrue : (a.files.any fun f => criticalFiles.any fun c => jsEndsWith f.path c) = true := by
            rw [List.any_eq_true]
            exact ⟨f, hf, by rw [List.any_eq_true]; exact ⟨c, hc', he⟩⟩
          rw [hcrit] at htrue
          exact absurd htrue (by simp)
        · exact absurd hcrit hrl
      · have hft : fileHasDangerousContent f = true := by
          unfold fileHasDangerousContent
          rw [hs, List.any_eq_true]
          exact ⟨p, hp, ht⟩
        have htrue : a.files.any fileHasDangerousContent = true := by
          rw [List.any_eq_true]
          exact ⟨f, hf, hft⟩
        rw [hdang] at htrue
        exact absurd htrue (by simp)
  exact ⟨hfalse, rfl⟩

/-- Witness for `isAutoFixSafe_rejects`: a suggestion with confidence `1/2`
against threshold `4/5` is rejected. -/
theorem isAutoFixSafe_rejects_witness :
    isAutoFixSafe ⟨.codeChange, "fix", [], [], 1/2, .low, false⟩ fallbackAnalysis ⟨4/5, 3⟩ = false ∧
      isAutoFixSafe ⟨.codeChange, "fix", [], [], 1/2, .low, false⟩ fallbackAnalysis ⟨4/5, 3⟩ =
        isAutoFixSafe ⟨.codeChange, "fix", [], [], 1/2, .low, false⟩ fallbackAnalysis ⟨4/5, 3⟩ :=
  isAutoFixSafe_rejects _ fallbackAnalysis fallbackAnalysis _ (Or.inl (by norm_num))

/-- Claim C9: when no file edit of a suggestion carries a full content string,
the dangerous-content check passes vacuously, so the gate rejects exactly when
the confidence, risk-level, edit-count or critical-path check fires — never
because of the content-pattern denylist. -/
theorem isAutoFixSafe_no_content (a : AutoFixSuggestion) (an : IssueAnalysis)
    (cfg : AIConfig) (hn : ∀ f ∈ a.files, f.content = none) :
    isAutoFixSafe a an cfg = false ↔
      (a.confidence < cfg.confidenceThreshold ∨
       a.riskLevel = .high ∨
       a.files.length > cfg.maxAutoFixComplexity ∨
       ((∃ f ∈ a.files, ∃ c ∈ criticalFiles, jsEndsWith f.path c = true) ∧
          a.riskLevel ≠ .low)) := by
  have hdang : a.files.any fileHasDangerousContent = false := by
    rw [List.any_eq_false]
    intro f hf
    unfold fileHasDangerousContent
    rw [hn f hf]
    simp
  constructor
  · intro hfalse
    by_contra hcon
    push_neg at hcon
    obtain ⟨h1, h2, h3, h4⟩ := hcon
    have htrue : isAutoFixSafe a an cfg = true := by
      rw [isAutoFixSafe_eq_true_iff]
      refine ⟨h1, h2, h3, ?_, hdang⟩
      by_cases hlow : a.riskLevel = .low
      · exact Or.inr hlow
      · left
        rw [List.any_eq_false]
        intro f hf
        intro hany
        rw [List.any_eq_true] at hany
        obtain ⟨c, hc', he⟩ := hany
        exact hlow (h4 ⟨f, hf, c, hc', he⟩)
    rw [hfalse] at htrue
    exact absurd htrue (by simp)
  · intro h
    cases hb : isAutoFixSafe a an cfg with
    | false => rfl
    | true =>
      rw [isAutoFixSafe_eq_true_iff] at hb
      obtain ⟨hc, hr, hl, hcrit, _⟩ := hb
      rcases h with h | h | h | ⟨⟨f, hf, c, hc', he⟩, hrl⟩
      · exact absurd hc (not_le.mpr h)
      · exact absurd h hr
      · exact absurd hl (not_le.mpr h)
      · rcases hcrit with hcrit | hcrit
        · have htrue : (a.files.any fun f => criticalFiles.any fun c => jsEndsWith f.path c) = true := by
            rw [List.any_eq_true]
            exact ⟨f, hf, by rw [List.any_eq_true]; exact ⟨c, hc', he⟩⟩
          rw [hcrit] at htrue
          exact absurd htrue (by simp)
        · exact absurd hcrit hrl

/-- Witness for `isAutoFixSafe_no_content`: a low-confidence suggestion whose
single edit has no full content is rejected, via the confidence disjunct. -/
theorem isAutoFixSafe_no_content_witness :
    isAutoFixSafe ⟨.codeChange, "d", [⟨"src/a.ts", .update, none, none⟩], [], 1/2, .low, false⟩
        fallbackAnalysis ⟨4/5, 3⟩ = false :=
  (isAutoFixSafe_no_content
      ⟨.codeChange, "d", [⟨"src/a.ts", .update, none, none⟩], [], 1/2, .low, false⟩
      fallbackAnalysis ⟨4/5, 3⟩ (by decide)).mpr (Or.inl (by norm_num))

/-- Claim C2 as amended: for every completion text that is not valid JSON
(embedded as the `none` input) or that lacks one of the required fields `type`,
`severity`, `priority`, `confidence`, `description`, the Analyzer's response
parser returns — without raising — the deterministic fallback classification
with type `other`, severity `medium`, priority `medium`, confidence `0.3` and
`autoFixable := false`; and for every input whose confidence value is absent or
coerces to a finite number, the returned classification's confidence lies in
`[0, 1]` (clamped).  A present non-numeric confidence passes the required-field
presence check and the clamp yields `NaN` (see the counterexample). -/
theorem parseAnalysisResponse_spec :
    parseAnalysisResponse none = fallbackAnalysis ∧
    (∀ p : ParsedAnalysis,
      (p.type? = none ∨ p.severity? = none ∨ p.priority? = none ∨
       p.confidence? = none ∨ p.description? = none) →
      parseAnalysisResponse (some p) = fallbackAnalysis) ∧
    (∀ x : Option ParsedAnalysis,
      (∀ p, x = some p → p.confidence? ≠ some JsNumber.nan) →
      (parseAnalysisResponse x).confidence.inUnitInterval = true) ∧
    fallbackAnalysis.type = "other" ∧
    fallbackAnalysis.severity = "medium" ∧
    fallbackAnalysis.priority = "medium" ∧
    fallbackAnalysis.confidence = .finite (3/10) ∧
    fallbackAnalysis.autoFixable = false := by
  have hfb : fallbackAnalysis.confidence.inUnitInterval = true := by
    show JsNumber.inUnitInterval (.finite (3/10)) = true
    rw [JsNumber.inUnitInterval]
    rw [decide_eq_true_eq]
    norm_num
  refine ⟨rfl, ?_, ?_, rfl, rfl, rfl, rfl, rfl⟩
  · intro p hmiss
    unfold parseAnalysisResponse
    have hcond : ¬(p.type?.isSome ∧ p.severity?.isSome ∧ p.priority?.isSome ∧
        p.confidence?.isSome ∧ p.description?.isSome) := by
      rcases hmiss with h | h | h | h | h <;> simp [h]
    simp [hcond]
  · intro x hnum
    cases x with
    | none => exact hfb
    | some p =>
      simp only [parseAnalysisResponse]
      split_ifs with hcond
      · cases hc : p.confidence? with
        | none =>
          rw [hc] at hcond
          simp at hcond
        | some v =>
          cases v with
          | nan => exact absurd hc (hnum p rfl)
          | finite q =>
            show JsNumber.inUnitInterval
              (jsMin (jsMax ((some (JsNumber.finite q)).getD (.finite 0)) (.finite 0))
                (.finite 1)) = true
            show JsNumber.inUnitInterval (.finite (min (max q 0) 1)) = true
            rw [JsNumber.inUnitInterval]
            rw [decide_eq_true_eq]
            exact ⟨le_min (le_max_right _ _) zero_le_one, min_le_right _ _⟩
      · exact hfb

/-- Witness for `parseAnalysisResponse_spec`: a parsed object missing the
required `type` key falls back, and a well-formed object with numeric
confidence `2` is clamped into the unit interval. -/
theorem parseAnalysisResponse_spec_witness :
    (parseAnalysisResponse
        (some { severity? := some "high", priority? := some "urgent",
                confidence? := some (.finite 2), description? := some "npe" }) =
      fallbackAnalysis) ∧
    (parseAnalysisResponse
        (some { type? := some "bug", severity? := some "low", priority? := some "low",
                confidence? := some (.finite 2),
                description? := some "d" })).confidence.inUnitInterval = true :=
  ⟨parseAnalysisResponse_spec.2.1
      { severity? := some "high", priority? := some "urgent",
        confidence? := some (.finite 2), description? := some "npe" }
      (Or.inl rfl),
   parseAnalysisResponse_spec.2.2.1
      (some { type? := some "bug", severity? := some "low", priority? := some "low",
              confidence? := some (.finite 2), description? := some "d" })
      (by
        intro p hp
        obtain rfl := Option.some.inj hp
        decide)⟩

/-- Counterexample to claim C2 as stated: a completion whose five required keys
are all present but whose `confidence` is the non-numeric JSON string `"high"`
passes the required-field check, and `Math.min(Math.max("high" || 0, 0), 1)`
evaluates to `NaN`, so the returned classification's confidence does not lie in
`[0, 1]` — refuting the claim's universal clamp. -/
theorem parseAnalysisResponse_nan_counterexample :
    (parseAnalysisResponse
        (some { type? := some "bug", severity? := some "low", priority? := some "low",
                confidence? := some JsNumber.nan,
                description? := some "d" })).confidence = JsNumber.nan ∧
    (parseAnalysisResponse
        (some { type? := some "bug", severity? := some "low", priority? := some "low",
                confidence? := some JsNumber.nan,
                description? := some "d" })).confidence.inUnitInterval = false :=
  ⟨rfl, rfl⟩

/-- Claim C7: applying the line-edit set
`[{line: 10, type: add, content: "X"}, {line: 5, type: remove}]` to any 20-line
file yields a file with exactly 20 lines: the edits are processed in descending
line-number order (the add at line 10 first, then the remove at line 5), so the
result drops the original line 5 and carries `"X"` as its 9th line immediately
followed by the original line 10 as its 10th line — the original content of
line 10 sits exactly one position after the added line.  The final conjunct
evaluates the source-level `applyFileChanges` on a concrete 20-line file. -/
theorem applyFileChanges_twenty_lines
    (l1 l2 l3 l4 l5 l6 l7 l8 l9 l10 l11 l12 l13 l14 l15 l16 l17 l18 l19 l20 : String) :
    applyLineChanges [l1, l2, l3, l4, l5, l6, l7, l8, l9, l10,
                      l11, l12, l13, l14, l15, l16, l17, l18, l19, l20]
        [{ lineNumber := 10, type := .add, content := "X" },
         { lineNumber := 5, type := .remove, content := "" }] =
      [l1, l2, l3, l4, l6, l7, l8, l9, "X", l10,
       l11, l12, l13, l14, l15, l16, l17, l18, l19, l20] ∧
    (applyLineChanges [l1, l2, l3, l4, l5, l6, l7, l8, l9, l10,
                       l11, l12, l13, l14, l15, l16, l17, l18, l19, l20]
        [{ lineNumber := 10, type := .add, content := "X" },
         { lineNumber := 5, type := .remove, content := "" }]).length = 20 ∧
    (applyLineChanges [l1, l2, l3, l4, l5, l6, l7, l8, l9, l10,
                       l11, l12, l13, l14, l15, l16, l17, l18, l19, l20]
        [{ lineNumber := 10, type := .add, content := "X" },
         { lineNumber := 5, type := .remove, content := "" }])[8]? = some "X" ∧
    (applyLineChanges [l1, l2, l3, l4, l5, l6, l7, l8, l9, l10,
                       l11, l12, l13, l14, l15, l16, l17, l18, l19, l20]
        [{ lineNumber := 10, type := .add, content := "X" },
         { lineNumber := 5, type := .remove, content := "" }])[9]? = some l10 ∧
    applyFileChanges "1\n2\n3\n4\n5\n6\n7\n8\n9\n10\n11\n12\n13\n14\n15\n16\n17\n18\n19\n20"
        [{ lineNumber := 10, type := .add, content := "X" },
         { lineNumber := 5, type := .remove, content := "" }] =
      "1\n2\n3\n4\n6\n7\n8\n9\nX\n10\n11\n12\n13\n14\n15\n16\n17\n18\n19\n20" :=
  ⟨rfl, rfl, rfl, rfl, by decide⟩

/-- Claim C6: for every gate-approved edit set whose per-file application
results in zero successfully changed files (including an empty file list), the
Fix Applicator reports overall failure and opens no change request; and a
change request is opened only when the changed-file set is non-empty. -/
theorem applyAutoFix_requires_changed_files :
    (∀ (a : AutoFixSuggestion) (an : IssueAnalysis) (cfg : AIConfig)
        (ok : FileEdit → Bool),
      isAutoFixSafe a an cfg = true →
      (∀ f ∈ a.files, ok f = false) →
      (applyAutoFix a an cfg ok).success = false ∧
        (applyAutoFix a an cfg ok).prOpened = false) ∧
    (∀ (a : AutoFixSuggestion) (an : IssueAnalysis) (cfg : AIConfig)
        (ok : FileEdit → Bool),
      (applyAutoFix a an cfg ok).prOpened = true →
      (applyAutoFix a an cfg ok).changedFiles ≠ []) := by
  constructor
  · intro a an cfg ok hgate hfail
    have hfilter : (a.files.filter fun f => ok f) = [] := by
      rw [List.filter_eq_nil]
      intro f hf
      simp [hfail f hf]
    unfold applyAutoFix
    rw [hgate]
    simp [hfilter]
  · intro a an cfg ok hpr hnil
    unfold applyAutoFix at hpr hnil
    split_ifs at hpr hnil with h1 h2
    refine h2 ?_
    have hmap : (a.files.filter fun f => ok f).map (·.path) = [] := hnil
    rw [hmap]
    rfl

/-- Witness for `applyAutoFix_requires_changed_files`: a gate-approved edit set
whose single file edit fails to apply reports failure and opens no request. -/
theorem applyAutoFix_requires_changed_files_witness :
    (applyAutoFix ⟨.codeChange, "d", [⟨"src/a.ts", .update, none, none⟩], [], 9/10, .low, false⟩
        fallbackAnalysis ⟨4/5, 3⟩ (fun _ => false)).success = false ∧
      (applyAutoFix ⟨.codeChange, "d", [⟨"src/a.ts", .update, none, none⟩], [], 9/10, .low, false⟩
        fallbackAnalysis ⟨4/5, 3⟩ (fun _ => false)).prOpened = false :=
  applyAutoFix_requires_changed_files.1
    ⟨.codeChange, "d", [⟨"src/a.ts", .update, none, none⟩], [], 9/10, .low, false⟩
    fallbackAnalysis ⟨4/5, 3⟩ (fun _ => false)
    (by
      rw [isAutoFixSafe_eq_true_iff]
      exact ⟨by norm_num, by decide, by decide, Or.inl (by decide), by decide⟩)
    (by decide)

/-- Claim C8: for every issue-opened event, if the issue carries any denylisted
skip label — `wontfix` among them, compared case-insensitively — or the issue
is not in the open state, or it already carries a processed/processing marker
label, then the pipeline performs no action on it: no label is attached, no
comment is posted, no record is created and the state is returned unchanged. -/
theorem handleIssueOpened_admission (env : PipelineEnv) (issue : GitHubIssue)
    (repo : GitHubRepository) (st : BotState)
    (h : (∃ l ∈ issue.labels, jsToLower l.name ∈ skipLabels) ∨
         issue.state ≠ "open" ∨
         (∃ l ∈ issue.labels, l.name ∈ ["issues-bot:analyzed", "issues-bot:processing"])) :
    "wontfix" ∈ skipLabels ∧ handleIssueOpened env issue repo st = ([], st) := by
  refine ⟨by decide, ?_⟩
  have hskip : shouldProcessIssue issue = false := by
    unfold shouldProcessIssue
    simp
    intro hall hopen
    rcases h with ⟨l, hl, hmem⟩ | h | ⟨l, hl, hmem⟩
    · exact absurd hmem (hall l hl)
    · exact absurd hopen h
    · exact ⟨l, hl, by simpa using hmem⟩
  unfold handleIssueOpened
  rw [hskip]
  rfl

/-- Witness for `handleIssueOpened_admission`: an open issue labelled `WontFix`
(matching the denylist case-insensitively) is a no-op.  The oracle environment
returns a concrete analysis, which the admission filter never consults. -/
theorem handleIssueOpened_admission_witness :
    "wontfix" ∈ skipLabels ∧
      handleIssueOpened
          ⟨some fallbackAnalysis, none, none, fun _ => false, false, ⟨1, 3⟩⟩
          ⟨7, "t", none, "open", [⟨"WontFix"⟩]⟩ ⟨1, "octo/repo"⟩ emptyState =
        ([], emptyState) :=
  handleIssueOpened_admission
    ⟨some fallbackAnalysis, none, none, fun _ => false, false, ⟨1, 3⟩⟩
    ⟨7, "t", none, "open", [⟨"WontFix"⟩]⟩ ⟨1, "octo/repo"⟩ emptyState
    (Or.inl ⟨⟨"WontFix"⟩, by decide, by decide⟩)

/-- Lookup after an upsert. -/
theorem storeSave_lookup (s : Store) (r : IssueRecord) (k : String) :
    storeSave s r k = if k = r.id then some r else s k := rfl

/-- Lookup after the record-creation step: the freshly built record sits at the
issue identity; every other key is untouched. -/
theorem saveIssueRecordStep_lookup (issue : GitHubIssue) (repo : GitHubRepository)
    (analysis : IssueAnalysis) (st : BotState) (k : String) :
    (saveIssueRecordStep issue repo analysis st).store k =
      if k = generateIssueId repo.fullName issue.number then
        some (mkIssueRecord issue repo analysis none)
      else st.store k := rfl

/-- The solution-update step only re-saves a record already in the store at the
issue identity, and preserves its status. -/
theorem generateSolutionStep_lookup (env : PipelineEnv) (issueId : String)
    (st : BotState) (k : String) (rec : IssueRecord)
    (h : (generateSolutionStep env issueId st).store k = some rec) :
    st.store k = some rec ∨
      ∃ r', st.store issueId = some r' ∧ rec.status = r'.status := by
  unfold generateSolutionStep at h
  cases hs : env.solutionResult with
  | none => rw [hs] at h; exact Or.inl h
  | some sol =>
    rw [hs] at h
    cases hm : st.store issueId with
    | none => rw [hm] at h; exact Or.inl h
    | some existing =>
      rw [hm] at h
      have h' : storeSave st.store { existing with solution := some sol } k = some rec := h
      rw [storeSave_lookup] at h'
      by_cases hk : k = ({ existing with solution := some sol } : IssueRecord).id
      · rw [if_pos hk] at h'
        obtain rfl := Option.some.inj h'
        exact Or.inr ⟨existing, rfl, rfl⟩
      · rw [if_neg hk] at h'
        exact Or.inl h'

/-- The auto-fix-attempt step mutates at most the record at the issue identity,
and only its attempt flags — never its status. -/
theorem attemptAutoFix_store_lookup (env : PipelineEnv) (issue : GitHubIssue)
    (repo : GitHubRepository) (analysis : IssueAnalysis) (st : BotState)
    (k : String) (rec : IssueRecord)
    (h : (attemptAutoFix env issue repo analysis st).2.store k = some rec) :
    st.store k = some rec ∨
      ∃ r', st.store (generateIssueId repo.fullName issue.number) = some r' ∧
        rec.status = r'.status := by
  unfold attemptAutoFix at h
  cases ha : env.autoFixResult with
  | none => rw [ha] at h; exact Or.inl h
  | some fix =>
    rw [ha] at h
    have h' : storeRecordAutoFixAttempt st.store (generateIssueId repo.fullName issue.number)
        (applyAutoFix fix analysis env.aiCfg env.fileChangeOk).success k = some rec := h
    unfold storeRecordAutoFixAttempt at h'
    by_cases hk : k = generateIssueId repo.fullName issue.number
    · rw [if_pos hk] at h'
      cases hm : st.store (generateIssueId repo.fullName issue.number) with
      | none => rw [hm] at h'; exact absurd h' (by simp)
      | some r' =>
        rw [hm] at h'
        simp only [Option.map_some'] at h'
        obtain rfl := Option.some.inj h'
        exact Or.inr ⟨r', rfl, rfl⟩
    · rw [if_neg hk] at h'
      exact Or.inl h'

/-- Through record creation and the solution update, every store entry either
predates the pipeline run or carries status `'analyzed'`. -/
theorem pipelineStoreAnalyzed (env : PipelineEnv) (issue : GitHubIssue)
    (repo : GitHubRepository) (analysis : IssueAnalysis) (st : BotState)
    (k : String) (rec : IssueRecord)
    (h : (generateSolutionStep env (generateIssueId repo.fullName issue.number)
          (saveIssueRecordStep issue repo analysis st)).store k = some rec) :
    st.store k = some rec ∨ rec.status = .analyzed := by
  rcases generateSolutionStep_lookup _ _ _ _ _ h with h1 | ⟨r', hr', hst⟩
  · rw [saveIssueRecordStep_lookup] at h1
    by_cases hk : k = generateIssueId repo.fullName issue.number
    · rw [if_pos hk] at h1
      obtain rfl := Option.some.inj h1
      exact Or.inr rfl
    · rw [if_neg hk] at h1
      exact Or.inl h1
  · rw [saveIssueRecordStep_lookup, if_pos rfl] at hr'
    obtain rfl := Option.some.inj hr'
    refine Or.inr ?_
    rw [hst]
    rfl

/-- After record creation and the solution update, whatever sits at the issue
identity has status `'analyzed'`. -/
theorem pipelineStoreAtIdAnalyzed (env : PipelineEnv) (issue : GitHubIssue)
    (repo : GitHubRepository) (analysis : IssueAnalysis) (st : BotState)
    (r : IssueRecord)
    (h : (generateSolutionStep env (generateIssueId repo.fullName issue.number)
          (saveIssueRecordStep issue repo analysis st)).store
        (generateIssueId repo.fullName issue.number) = some r) :
    r.status = .analyzed := by
  rcases generateSolutionStep_lookup _ _ _ _ _ h with h1 | ⟨r', hr', hst⟩
  · rw [saveIssueRecordStep_lookup, if_pos rfl] at h1
    obtain rfl := Option.some.inj h1
    rfl
  · rw [saveIssueRecordStep_lookup, if_pos rfl] at hr'
    obtain rfl := Option.some.inj hr'
    rw [hst]
    rfl

/-- Claim C10: every record the issue-opened pipeline writes at creation has
status `'analyzed'` and `autoFixAttempted = false`; the statuses `'pending'`
and `'analyzing'` are distinct from `'analyzed'` and are never persisted by
this handler, so every record reachable in the post-run store either predates
the run or has status `'analyzed'`. -/
theorem issuePipeline_records_analyzed :
    (∀ (issue : GitHubIssue) (repo : GitHubRepository) (analysis : IssueAnalysis)
        (solution : Option IssueSolution),
      (mkIssueRecord issue repo analysis solution).status = .analyzed ∧
      (mkIssueRecord issue repo analysis solution).autoFixAttempted = false) ∧
    (IssueStatus.analyzed ≠ .pending ∧ IssueStatus.analyzed ≠ .analyzing) ∧
    (∀ (env : PipelineEnv) (issue : GitHubIssue) (repo : GitHubRepository)
        (st : BotState) (k : String) (rec : IssueRecord),
      (handleIssueOpened env issue repo st).2.store k = some rec →
      st.store k = some rec ∨ rec.status = .analyzed) := by
  refine ⟨fun _ _ _ _ => ⟨rfl, rfl⟩, ⟨by decide, by decide⟩, ?_⟩
  intro env issue repo st k rec h
  unfold handleIssueOpened at h
  split_ifs at h with hsp
  · exact Or.inl h
  · cases hA : env.analysisResult with
    | none => rw [hA] at h; exact Or.inl h
    | some analysis =>
      rw [hA] at h
      dsimp only at h
      by_cases hauto : (analysis.autoFixable && env.autoFixEnabled) = true
      · rw [if_pos hauto] at h
        have h' : (attemptAutoFix env issue repo analysis
            (generateSolutionStep env (generateIssueId repo.fullName issue.number)
              (saveIssueRecordStep issue repo analysis st))).2.store k = some rec := h
        rcases attemptAutoFix_store_lookup _ _ _ _ _ _ _ h' with h2 | ⟨r', hr', hst⟩
        · exact pipelineStoreAnalyzed env issue repo analysis st k rec h2
        · exact Or.inr (by
            rw [hst, pipelineStoreAtIdAnalyzed env issue repo analysis st r' hr'])
      · rw [if_neg hauto] at h
        exact pipelineStoreAnalyzed env issue repo analysis st k rec h

/-- Witness for `issuePipeline_records_analyzed`: running the pipeline on a
fresh store, the record it creates is found at the issue identity and is
`'analyzed'`. -/
theorem issuePipeline_records_analyzed_witness :
    emptyState.store "octo/repo#1" =
        some (mkIssueRecord ⟨1, "t", none, "open", []⟩ ⟨5, "octo/repo"⟩
          ⟨"bug", "low", "low", .finite 1, "d", [], "1h", false, [], []⟩ none) ∨
      (mkIssueRecord ⟨1, "t", none, "open", []⟩ ⟨5, "octo/repo"⟩
        ⟨"bug", "low", "low", .finite 1, "d", [], "1h", false, [], []⟩ none).status =
        .analyzed :=
  issuePipeline_records_analyzed.2.2
    ⟨some ⟨"bug", "low", "low", .finite 1, "d", [], "1h", false, [], []⟩, none, none,
     fun _ => false, false, ⟨1, 3⟩⟩
    ⟨1, "t", none, "open", []⟩ ⟨5, "octo/repo"⟩ emptyState "octo/repo#1"
    (mkIssueRecord ⟨1, "t", none, "open", []⟩ ⟨5, "octo/repo"⟩
      ⟨"bug", "low", "low", .finite 1, "d", [], "1h", false, [], []⟩ none)
    (by rfl)

/-- Claim C5: a `fix` command on an issue with no previously stored record
produces exactly the progress response followed by one explanatory
analyze-first comment — in particular exactly one comment carrying the
explanatory message — and leaves the persisted state completely unchanged (no
record written, no status update, no auto-fix attempt recorded, no log
appended). -/
theorem handleFixCommand_no_record (env : PipelineEnv) (issue : GitHubIssue)
    (repo : GitHubRepository) (st : BotState)
    (h : st.store (generateIssueId repo.fullName issue.number) = none) :
    (handleFixCommand env issue repo st).1 =
      [Action.createComment issue.number (.commandResponse fixProgressMsg),
       Action.createComment issue.number (.commandResponse noRecordMsg)] ∧
    ((handleFixCommand env issue repo st).1.count
        (Action.createComment issue.number (.commandResponse noRecordMsg))) = 1 ∧
    (handleFixCommand env issue repo st).2 = st := by
  unfold handleFixCommand
  dsimp only
  rw [h]
  refine ⟨rfl, ?_, rfl⟩
  show ([Action.createComment issue.number (.commandResponse fixProgressMsg),
         Action.createComment issue.number (.commandResponse noRecordMsg)].count
          (Action.createComment issue.number (.commandResponse noRecordMsg))) = 1
  simp [fixProgressMsg, noRecordMsg]

/-- Witness for `handleFixCommand_no_record`: a `fix` command against the empty
store. -/
theorem handleFixCommand_no_record_witness :
    (handleFixCommand ⟨none, none, none, fun _ => false, false, ⟨1, 3⟩⟩
        ⟨3, "t", none, "open", []⟩ ⟨5, "octo/repo"⟩ emptyState).1 =
      [Action.createComment 3 (.commandResponse fixProgressMsg),
       Action.createComment 3 (.commandResponse noRecordMsg)] ∧
    ((handleFixCommand ⟨none, none, none, fun _ => false, false, ⟨1, 3⟩⟩
        ⟨3, "t", none, "open", []⟩ ⟨5, "octo/repo"⟩ emptyState).1.count
        (Action.createComment 3 (.commandResponse noRecordMsg))) = 1 ∧
    (handleFixCommand ⟨none, none, none, fun _ => false, false, ⟨1, 3⟩⟩
        ⟨3, "t", none, "open", []⟩ ⟨5, "octo/repo"⟩ emptyState).2 = emptyState :=
  handleFixCommand_no_record ⟨none, none, none, fun _ => false, false, ⟨1, 3⟩⟩
    ⟨3, "t", none, "open", []⟩ ⟨5, "octo/repo"⟩ emptyState rfl

/-- Claim C3 as amended: for every pull-request-closed event whose pull request
was merged and whose head branch matches `autofix/issue-{N}`, the handler posts
exactly one completion comment on issue `N`, closes the hosting platform's
issue, and transitions the stored record for issue `N` to status `'fixed'` —
the stored record is not further transitioned to `'closed'` (no code path
writes that status). -/
theorem prClosedMerged_amended (pr : PullRequest) (repo : GitHubRepository)
    (st : BotState) (n : Nat)
    (hstart : jsStartsWith pr.headRef "autofix/issue-" = true)
    (hparse : parseLeadingInt (stripAutofixBranch pr.headRef) = some n)
    (hmerged : pr.merged = true) :
    (handlePullRequestEvent "closed" pr repo st).1 =
      [Action.createComment n (.autoFixCompleted pr.number), Action.closeIssue n] ∧
    ((handlePullRequestEvent "closed" pr repo st).1.count
        (Action.createComment n (.autoFixCompleted pr.number))) = 1 ∧
    Action.closeIssue n ∈ (handlePullRequestEvent "closed" pr repo st).1 ∧
    (handlePullRequestEvent "closed" pr repo st).2.store
        (repo.fullName ++ "#" ++ toString n) =
      (st.store (repo.fullName ++ "#" ++ toString n)).map
        (fun r => { r with status := .fixed }) := by
  unfold handlePullRequestEvent
  rw [if_pos hstart]
  dsimp only
  rw [hparse, hmerged]
  dsimp only
  refine ⟨rfl, ?_, ?_, ?_⟩
  · show ([Action.createComment n (.autoFixCompleted pr.number),
           Action.closeIssue n].count (Action.createComment n (.autoFixCompleted pr.number))) = 1
    simp
  · show Action.closeIssue n ∈ [Action.createComment n (.autoFixCompleted pr.number),
      Action.closeIssue n]
    simp
  · show storeUpdateStatus st.store (repo.fullName ++ "#" ++ toString n) .fixed
        (repo.fullName ++ "#" ++ toString n) = _
    unfold storeUpdateStatus
    rw [if_pos rfl]

/-- Witness for `prClosedMerged_amended` at the merged closing of
`autofix/issue-42`. -/
theorem prClosedMerged_amended_witness :
    (handlePullRequestEvent "closed" ⟨7, "autofix/issue-42", true⟩
        ⟨5, "octo/repo"⟩ emptyState).1 =
      [Action.createComment 42 (.autoFixCompleted 7), Action.closeIssue 42] ∧
    ((handlePullRequestEvent "closed" ⟨7, "autofix/issue-42", true⟩
        ⟨5, "octo/repo"⟩ emptyState).1.count
        (Action.createComment 42 (.autoFixCompleted 7))) = 1 ∧
    Action.closeIssue 42 ∈ (handlePullRequestEvent "closed" ⟨7, "autofix/issue-42", true⟩
        ⟨5, "octo/repo"⟩ emptyState).1 ∧
    (handlePullRequestEvent "closed" ⟨7, "autofix/issue-42", true⟩
        ⟨5, "octo/repo"⟩ emptyState).2.store ("octo/repo" ++ "#" ++ toString 42) =
      (emptyState.store ("octo/repo" ++ "#" ++ toString 42)).map
        (fun r => { r with status := .fixed }) :=
  prClosedMerged_amended ⟨7, "autofix/issue-42", true⟩ ⟨5, "octo/repo"⟩ emptyState 42
    (by decide) (by decide) rfl

/-- Counterexample to claim C3 as stated: processing the merged closing of pull
request `autofix/issue-42` leaves the stored record for issue 42 at status
`'fixed'`; it is not transitioned to `'closed'` (no code path ever writes that
stored status — the `'closed'` state only exists on the hosting platform's
issue). -/
theorem prClosedMerged_counterexample :
    ((handlePullRequestEvent "closed" ⟨7, "autofix/issue-42", true⟩ ⟨5, "octo/repo"⟩
        { store := fun k => if k = "octo/repo#42" then
            some (mkIssueRecord ⟨42, "t", none, "open", []⟩ ⟨5, "octo/repo"⟩
              ⟨"bug", "low", "low", .finite 1, "d", [], "1h", false, [], []⟩ none)
          else none
        , logs := [] }).2.store "octo/repo#42").map (fun r => r.status) =
      some .fixed ∧
    ¬ (((handlePullRequestEvent "closed" ⟨7, "autofix/issue-42", true⟩ ⟨5, "octo/repo"⟩
        { store := fun k => if k = "octo/repo#42" then
            some (mkIssueRecord ⟨42, "t", none, "open", []⟩ ⟨5, "octo/repo"⟩
              ⟨"bug", "low", "low", .finite 1, "d", [], "1h", false, [], []⟩ none)
          else none
        , logs := [] }).2.store "octo/repo#42").map (fun r => r.status) =
      some .closed) :=
  ⟨by rfl, by decide⟩

/-- Claim C4, evaluated on the code: when the per-repository token bucket is
exhausted, `consume` rejects with a `RateLimiterRes`, which is not an `Error`
instance, so the handler's `instanceof Error` branch is skipped: no rate-limit
comment is posted (it only logs) and the pipeline work is dropped — the state
is returned unchanged and nothing is queued or retried.  The claim's "single
rate-limited notification comment" is therefore never produced. -/
theorem issuesOpened_rate_limited_drops_silently (env : PipelineEnv)
    (issue : GitHubIssue) (repo : GitHubRepository) (st : BotState) :
    issuesOpenedWebhook (some rateLimiterRes) env issue repo st = ([], st) ∧
      rateLimiterRes.isError = false :=
  ⟨rfl, rfl⟩

end IssuesBot
